import Mathlib

/-!
Verification of `magenta/models/performance_rnn/performance_model.py`.

Shallow embedding conventions:
* Python floats in the configuration literals are exact decimal constants
  (1.0, 3.0, 5.0, 0.001, ...); they are modelled as exact rationals `ℚ`.
* Optional Python values (`None` vs a value) are modelled with `Option`.
* The heterogeneous control-event lists (`(density, histogram)` tuples,
  bare densities, bare histograms) are modelled with the inductive
  `ControlEvent`.
* The inherited methods `_generate_events` and `_evaluate_log_likelihood`
  live in another module; they are abstracted as function parameters, so
  the theorems speak about exactly what this file's code hands to them.
* A Python `dict` literal is modelled as an association list in source
  order; a failed key lookup (`KeyError`) is modelled as `none`.
-/

/-- Heterogeneous control events appearing in the lists built by
`generate_performance` and `performance_log_likelihood`: a bare note
density, a bare pitch histogram, or a `(note_density, pitch_histogram)`
tuple. -/
inductive ControlEvent (α β : Type) where
  | density (d : α)
  | histogram (h : β)
  | pair (d : α) (h : β)
deriving DecidableEq

/-- Argument record of the inherited `_generate_events` call made at the end
of `PerformanceRnnModel.generate_performance`. -/
structure GenerateCall (α β γ : Type) where
  num_steps : Nat
  primer_sequence : γ
  temperature : ℚ
  beam_size : Nat
  branch_factor : Nat
  steps_per_iteration : Nat
  control_events : Option (List (ControlEvent α β))

/-- `PerformanceRnnModel.generate_performance`: builds `control_events` from
the optional `note_density` / `pitch_histogram` arguments exactly as the
Python `if/elif/elif/else` chain does, then calls the inherited
`_generate_events` (abstracted as `generateEvents`) and returns its result. -/
def generate_performance {α β γ ρ : Type}
    (generateEvents : GenerateCall α β γ → ρ)
    (num_steps : Nat) (primer_sequence : γ) (temperature : ℚ)
    (beam_size : Nat) (branch_factor : Nat) (steps_per_iteration : Nat)
    (note_density : Option α) (pitch_histogram : Option β) : ρ :=
  let control_events : Option (List (ControlEvent α β)) :=
    match note_density, pitch_histogram with
    | some d, some h => some (List.replicate num_steps (ControlEvent.pair d h))
    | some d, none => some (List.replicate num_steps (ControlEvent.density d))
    | none, some h => some (List.replicate num_steps (ControlEvent.histogram h))
    | none, none => none
  generateEvents
    { num_steps := num_steps, primer_sequence := primer_sequence,
      temperature := temperature, beam_size := beam_size,
      branch_factor := branch_factor,
      steps_per_iteration := steps_per_iteration,
      control_events := control_events }

/-- `PerformanceRnnModel.performance_log_likelihood`: builds `control_events`
from the optional conditioning arguments (replicated `len(sequence)` times),
then returns `self._evaluate_log_likelihood([sequence],
control_events=control_events)[0]`.  The inherited batched evaluator is
abstracted as `evaluateLogLikelihood`; Python's `[0]` indexing is modelled
with `List.get? 0`. -/
def performance_log_likelihood {α β ε ρ : Type}
    (evaluateLogLikelihood :
      List (List ε) → Option (List (ControlEvent α β)) → List ρ)
    (sequence : List ε) (note_density : Option α)
    (pitch_histogram : Option β) : Option ρ :=
  let control_events : Option (List (ControlEvent α β)) :=
    match note_density, pitch_histogram with
    | some d, some h =>
        some (List.replicate sequence.length (ControlEvent.pair d h))
    | some d, none =>
        some (List.replicate sequence.length (ControlEvent.density d))
    | none, some h =>
        some (List.replicate sequence.length (ControlEvent.histogram h))
    | none, none => none
  (evaluateLogLikelihood [sequence] control_events).get? 0

/-- The control-sequence construction of `generate_performance`
(source lines 59-66), factored out with the step count explicit. -/
def generate_control_events (α β : Type) (num_steps : Nat)
    (note_density : Option α) (pitch_histogram : Option β) :
    Option (List (ControlEvent α β)) :=
  match note_density, pitch_histogram with
  | some d, some h => some (List.replicate num_steps (ControlEvent.pair d h))
  | some d, none => some (List.replicate num_steps (ControlEvent.density d))
  | none, some h => some (List.replicate num_steps (ControlEvent.histogram h))
  | none, none => none

/-- The control-sequence construction of `performance_log_likelihood`
(source lines 90-97), factored out; the repetition count is
`len(sequence)`. -/
def log_likelihood_control_events (α β ε : Type) (sequence : List ε)
    (note_density : Option α) (pitch_histogram : Option β) :
    Option (List (ControlEvent α β)) :=
  match note_density, pitch_histogram with
  | some d, some h =>
      some (List.replicate sequence.length (ControlEvent.pair d h))
  | some d, none =>
      some (List.replicate sequence.length (ControlEvent.density d))
  | none, some h =>
      some (List.replicate sequence.length (ControlEvent.histogram h))
  | none, none => none

/-- `GeneratorDetails` protobuf message as used by the registry: an id and a
description. -/
structure GeneratorDetails where
  id : String
  description : String
deriving DecidableEq

/-- One-hot encodings constructed in `default_configs`:
`PerformanceOneHotEncoding(num_velocity_bins=...)` and
`NoteDensityOneHotEncoding(density_bin_ranges=...)`.  The zero-argument call
`PerformanceOneHotEncoding()` uses that class's default of 0 velocity
bins. -/
inductive OneHotEncodingSpec where
  | performanceOneHot (num_velocity_bins : Nat)
  | noteDensityOneHot (density_bin_ranges : List ℚ)

/-- Encoder-decoder topology constructed in `default_configs`:
`OneHotEventSequenceEncoderDecoder`, `ConditionalEventSequenceEncoderDecoder`
(control part, target part), `MultipleEventSequenceEncoder` over a list, and
`PitchHistogramEncoderDecoder`. -/
inductive EncoderDecoderSpec where
  | oneHot (encoding : OneHotEncodingSpec)
  | conditional (control : EncoderDecoderSpec) (target : EncoderDecoderSpec)
  | multiple (encoders : List EncoderDecoderSpec)
  | pitchHistogramEncDec

/-- The `tf.contrib.training.HParams` bag passed to every registry entry. -/
structure HParams where
  batch_size : Nat
  rnn_layer_sizes : List Nat
  dropout_keep_prob : ℚ
  clip_norm : Nat
  learning_rate : ℚ
deriving DecidableEq

/-- `PerformanceRnnConfig` state after `__init__`: the three inherited fields
plus the four performance-specific fields set by the constructor body. -/
structure PerformanceRnnConfig where
  details : GeneratorDetails
  encoder_decoder : EncoderDecoderSpec
  hparams : HParams
  num_velocity_bins : Nat
  density_bin_ranges : Option (List ℚ)
  density_window_size : Option ℚ
  pitch_histogram_window_size : Option ℚ

/-- The `PerformanceRnnConfig.__init__` constructor with every keyword
argument given explicitly. -/
def PerformanceRnnConfig.make (details : GeneratorDetails)
    (encoder_decoder : EncoderDecoderSpec) (hparams : HParams)
    (num_velocity_bins : Nat) (density_bin_ranges : Option (List ℚ))
    (density_window_size : Option ℚ)
    (pitch_histogram_window_size : Option ℚ) : PerformanceRnnConfig :=
  { details := details, encoder_decoder := encoder_decoder,
    hparams := hparams, num_velocity_bins := num_velocity_bins,
    density_bin_ranges := density_bin_ranges,
    density_window_size := density_window_size,
    pitch_histogram_window_size := pitch_histogram_window_size }

/-- `PerformanceRnnConfig.__init__` invoked with only the three required
arguments, so every keyword argument takes its declared default:
`num_velocity_bins=0`, `density_bin_ranges=None`, `density_window_size=3.0`,
`pitch_histogram_window_size=None`. -/
def PerformanceRnnConfig.makeDefault (details : GeneratorDetails)
    (encoder_decoder : EncoderDecoderSpec) (hparams : HParams) :
    PerformanceRnnConfig :=
  PerformanceRnnConfig.make details encoder_decoder hparams 0 none (some 3)
    none

/-- The identical `HParams(...)` literal repeated in all five registry
entries. -/
def standardHParams : HParams :=
  { batch_size := 64, rnn_layer_sizes := [512, 512, 512],
    dropout_keep_prob := 1, clip_norm := 3, learning_rate := 1 / 1000 }

/-- The `density_bin_ranges` literal `[1.0, 2.0, 4.0, 8.0, 16.0, 32.0,
64.0]` used by the density-conditioned entries. -/
def standardDensityBinRanges : List ℚ := [1, 2, 4, 8, 16, 32, 64]

/-- The module-level `default_configs` dict, in source order.  Each entry's
omitted keyword arguments are filled with the constructor defaults from
`PerformanceRnnConfig.__init__`. -/
def default_configs : List (String × PerformanceRnnConfig) :=
  [("performance",
    PerformanceRnnConfig.make
      { id := "performance", description := "Performance RNN" }
      (EncoderDecoderSpec.oneHot (OneHotEncodingSpec.performanceOneHot 0))
      standardHParams 0 none (some 3) none),
   ("performance_with_dynamics",
    PerformanceRnnConfig.make
      { id := "performance_with_dynamics",
        description := "Performance RNN with dynamics" }
      (EncoderDecoderSpec.oneHot (OneHotEncodingSpec.performanceOneHot 32))
      standardHParams 32 none (some 3) none),
   ("density_conditioned_performance_with_dynamics",
    PerformanceRnnConfig.make
      { id := "density_conditioned_performance_with_dynamics",
        description := "Note-density-conditioned Performance RNN + dynamics" }
      (EncoderDecoderSpec.conditional
        (EncoderDecoderSpec.oneHot
          (OneHotEncodingSpec.noteDensityOneHot standardDensityBinRanges))
        (EncoderDecoderSpec.oneHot
          (OneHotEncodingSpec.performanceOneHot 32)))
      standardHParams 32 (some standardDensityBinRanges) (some 3) none),
   ("pitch_conditioned_performance_with_dynamics",
    PerformanceRnnConfig.make
      { id := "pitch_conditioned_performance_with_dynamics",
        description := "Pitch-histogram-conditioned Performance RNN" }
      (EncoderDecoderSpec.conditional
        EncoderDecoderSpec.pitchHistogramEncDec
        (EncoderDecoderSpec.oneHot
          (OneHotEncodingSpec.performanceOneHot 32)))
      standardHParams 32 none (some 3) (some 5)),
   ("multiconditioned_performance_with_dynamics",
    PerformanceRnnConfig.make
      { id := "multiconditioned_performance_with_dynamics",
        description := "Density- and pitch-conditioned Performance RNN" }
      (EncoderDecoderSpec.conditional
        (EncoderDecoderSpec.multiple
          [EncoderDecoderSpec.oneHot
            (OneHotEncodingSpec.noteDensityOneHot standardDensityBinRanges),
           EncoderDecoderSpec.pitchHistogramEncDec])
        (EncoderDecoderSpec.oneHot
          (OneHotEncodingSpec.performanceOneHot 32)))
      standardHParams 32 (some standardDensityBinRanges) (some 3) (some 5))]

/-- The five registered configuration names, in source order. -/
def default_config_names : List String :=
  ["performance", "performance_with_dynamics",
   "density_conditioned_performance_with_dynamics",
   "pitch_conditioned_performance_with_dynamics",
   "multiconditioned_performance_with_dynamics"]

/-- C2: the registry has exactly the five documented keys; the
`performance` entry has `num_velocity_bins = 0` and unset density bin
ranges and pitch histogram window; the `multiconditioned` entry has 32
velocity bins, the seven density bin edges, and a 5.0-second pitch
histogram window. -/
theorem default_configs_keys_and_fields :
    default_configs.map Prod.fst = default_config_names ∧
    (default_configs.lookup "performance").map (fun c =>
        (c.num_velocity_bins, c.density_bin_ranges,
         c.pitch_histogram_window_size)) =
      some (0, none, none) ∧
    (default_configs.lookup "multiconditioned_performance_with_dynamics").map
        (fun c =>
          (c.num_velocity_bins, c.density_bin_ranges,
           c.pitch_histogram_window_size)) =
      some (32, some [1, 2, 4, 8, 16, 32, 64], some 5) := by
  refine ⟨rfl, ?_, ?_⟩ <;> decide

/-- C1: at the failing input (both conditioning arguments non-None) neither
method fails: `generate_performance` hands `_generate_events` the replicated
pair control sequence and returns its result, and
`performance_log_likelihood` likewise returns the evaluator's result,
contradicting both methods' documented `ValueError`. -/
theorem both_conditioning_inputs_produce_result :
    generate_performance (fun c => c) 3 () 1 1 1 1 (some (2 : ℚ))
        (some [(1 : ℚ) / 2, 1 / 2]) =
      { num_steps := 3, primer_sequence := (), temperature := 1,
        beam_size := 1, branch_factor := 1, steps_per_iteration := 1,
        control_events :=
          some (List.replicate 3 (ControlEvent.pair 2 [1 / 2, 1 / 2])) } ∧
    performance_log_likelihood (fun _ _ => [(0 : ℚ)])
        ([0, 1, 2] : List Nat) (some (2 : ℚ)) (some [(1 : ℚ) / 2, 1 / 2]) =
      some 0 :=
  ⟨rfl, rfl⟩

/-- C3: for every positive step count `n`, a density `d` and a histogram
`h`, the control sequence built when both are provided is `some` list of
length `n` whose every element is the pair `(d, h)`. -/
theorem control_events_pair_when_both (α β : Type) (n : Nat) (hn : 0 < n)
    (d : α) (h : β) :
    ∃ l, generate_control_events α β n (some d) (some h) = some l ∧
      l.length = n ∧ ∀ x ∈ l, x = ControlEvent.pair d h := by
  refine ⟨List.replicate n (ControlEvent.pair d h), rfl,
    List.length_replicate n _, ?_⟩
  intro x hx
  exact List.eq_of_mem_replicate hx

/-- Concrete instantiation of `control_events_pair_when_both` at `n = 3`,
`d = 2`, `h = [1]`. -/
theorem control_events_pair_when_both_witness :
    (0 : Nat) < 3 ∧
    ∃ l, generate_control_events ℚ (List ℚ) 3 (some 2) (some [1]) = some l ∧
      l.length = 3 ∧ ∀ x ∈ l, x = ControlEvent.pair 2 [1] :=
  ⟨by decide, control_events_pair_when_both ℚ (List ℚ) 3 (by decide) 2 [1]⟩

/-- C4: for every positive step count `n`, when exactly one conditioning
input is provided the control sequence is `some` list of length `n` whose
every element is that single value (as a bare density, respectively a bare
histogram). -/
theorem control_events_single_condition (α β : Type) (n : Nat)
    (hn : 0 < n) :
    (∀ d : α, ∃ l,
      generate_control_events α β n (some d) none = some l ∧
        l.length = n ∧ ∀ x ∈ l, x = ControlEvent.density d) ∧
    (∀ h : β, ∃ l,
      generate_control_events α β n none (some h) = some l ∧
        l.length = n ∧ ∀ x ∈ l, x = ControlEvent.histogram h) := by
  constructor
  · intro d
    refine ⟨List.replicate n (ControlEvent.density d), rfl,
      List.length_replicate n _, ?_⟩
    intro x hx
    exact List.eq_of_mem_replicate hx
  · intro h
    refine ⟨List.replicate n (ControlEvent.histogram h), rfl,
      List.length_replicate n _, ?_⟩
    intro x hx
    exact List.eq_of_mem_replicate hx

/-- Concrete instantiation of `control_events_single_condition` at
`n = 3`. -/
theorem control_events_single_condition_witness :
    (0 : Nat) < 3 ∧
    ((∀ d : ℚ, ∃ l,
      generate_control_events ℚ (List ℚ) 3 (some d) none = some l ∧
        l.length = 3 ∧ ∀ x ∈ l, x = ControlEvent.density d) ∧
    (∀ h : List ℚ, ∃ l,
      generate_control_events ℚ (List ℚ) 3 none (some h) = some l ∧
        l.length = 3 ∧ ∀ x ∈ l, x = ControlEvent.histogram h)) :=
  ⟨by decide, control_events_single_condition ℚ (List ℚ) 3 (by decide)⟩

/-- C5: with neither conditioning input, the construction yields the
absence marker `none` for every step count; `none` is distinct from an
empty sequence; and that marker is exactly what `generate_performance`
hands to `_generate_events` and `performance_log_likelihood` hands to
`_evaluate_log_likelihood`. -/
theorem control_events_absent_when_unconditioned (α β γ ρ ε : Type)
    (n : Nat) (g : GenerateCall α β γ → ρ) (primer : γ) (t : ℚ)
    (bs bf spi : Nat)
    (f : List (List ε) → Option (List (ControlEvent α β)) → List ρ)
    (seq : List ε) :
    generate_control_events α β n none none = none ∧
    generate_control_events α β n none none ≠ some [] ∧
    generate_performance g n primer t bs bf spi none none =
      g { num_steps := n, primer_sequence := primer, temperature := t,
          beam_size := bs, branch_factor := bf,
          steps_per_iteration := spi, control_events := none } ∧
    performance_log_likelihood f seq none none = (f [seq] none).get? 0 :=
  ⟨rfl, fun hc => Option.noConfusion hc, rfl, rfl⟩

/-- C6: `performance_log_likelihood` always calls the batched evaluator
with the one-element batch `[sequence]` and the control sequence built from
its conditioning arguments (the absence marker when unconditioned), and
returns the evaluator's single result unwrapped (element 0). -/
theorem log_likelihood_single_element_batch (α β ε ρ : Type)
    (f : List (List ε) → Option (List (ControlEvent α β)) → List ρ)
    (seq : List ε) (d : Option α) (h : Option β) :
    performance_log_likelihood f seq d h =
      (f [seq] (log_likelihood_control_events α β ε seq d h)).get? 0 := by
  cases d <;> cases h <;> rfl

/-- C9: for every sequence whose length equals `num_steps`, the control
sequence built inside `performance_log_likelihood` coincides with the one
built inside `generate_performance`: the two methods implement the same
expansion. -/
theorem control_events_methods_agree (α β ε : Type) (seq : List ε)
    (n : Nat) (hlen : seq.length = n) (d : Option α) (h : Option β) :
    log_likelihood_control_events α β ε seq d h =
      generate_control_events α β n d h := by
  cases d <;> cases h <;> simp [log_likelihood_control_events,
    generate_control_events, hlen]

/-- Concrete instantiation of `control_events_methods_agree` on a
three-element sequence with `n = 3`. -/
theorem control_events_methods_agree_witness :
    ([0, 1, 2] : List Nat).length = 3 ∧
    log_likelihood_control_events ℚ (List ℚ) Nat [0, 1, 2] (some 2) none =
      generate_control_events ℚ (List ℚ) 3 (some 2) none :=
  ⟨rfl, control_events_methods_agree ℚ (List ℚ) Nat [0, 1, 2] 3 rfl
    (some 2) none⟩

/-- A concrete `GeneratorDetails` used to instantiate the constructor in
counterexamples. -/
def sampleDetails : GeneratorDetails :=
  { id := "sample", description := "sample config" }

/-- A concrete encoder-decoder used to instantiate the constructor in
counterexamples. -/
def sampleEncoderDecoder : EncoderDecoderSpec :=
  EncoderDecoderSpec.oneHot (OneHotEncodingSpec.performanceOneHot 0)

/-- C7 counterexample: a config built with only the required constructor
arguments has `density_window_size = 3.0`, not unset — the constructor's
declared default is `density_window_size=3.0` even though density
conditioning is off. -/
theorem density_window_default_counterexample :
    (PerformanceRnnConfig.makeDefault sampleDetails sampleEncoderDecoder
        standardHParams).density_window_size ≠ none ∧
    (PerformanceRnnConfig.makeDefault sampleDetails sampleEncoderDecoder
        standardHParams).density_window_size = some 3 := by
  constructor
  · decide
  · rfl

/-- C7 amended: the constructor defaults `num_velocity_bins` to 0,
`density_bin_ranges` to unset and `pitch_histogram_window_size` to unset,
but defaults `density_window_size` to 3.0 seconds (set, even when density
conditioning is off). -/
theorem config_constructor_defaults (d : GeneratorDetails)
    (e : EncoderDecoderSpec) (hp : HParams) :
    (PerformanceRnnConfig.makeDefault d e hp).num_velocity_bins = 0 ∧
    (PerformanceRnnConfig.makeDefault d e hp).density_bin_ranges = none ∧
    (PerformanceRnnConfig.makeDefault d e hp).pitch_histogram_window_size =
      none ∧
    (PerformanceRnnConfig.makeDefault d e hp).density_window_size = some 3 :=
  ⟨rfl, rfl, rfl, rfl⟩

/-- Lookup in a string-keyed association list misses whenever the key is
not among the stored keys. -/
theorem lookup_eq_none_of_not_mem_keys {β : Type}
    (l : List (String × β)) (k : String) (hk : k ∉ l.map Prod.fst) :
    l.lookup k = none := by
  induction l with
  | nil => rfl
  | cons p t ih =>
    simp only [List.map_cons, List.mem_cons, not_or] at hk
    have hne : (k == p.1) = false := beq_eq_false_iff_ne.mpr hk.1
    cases p with
    | mk a b =>
      simp only [List.lookup]
      simp only [List.map_cons, List.mem_cons] at hne ⊢
      rw [hne]
      exact ih hk.2

/-- C8: looking up any string that is not one of the five registered
configuration names yields the miss marker (`KeyError` in Python), never a
default configuration. -/
theorem lookup_unregistered_none (k : String)
    (hk : k ∉ default_config_names) :
    default_configs.lookup k = none := by
  apply lookup_eq_none_of_not_mem_keys
  intro hmem
  exact hk (by simpa [default_configs, default_config_names] using hmem)

/-- Concrete instantiation of `lookup_unregistered_none` at the
unregistered key `"melody"`. -/
theorem lookup_unregistered_none_witness :
    "melody" ∉ default_config_names ∧
    default_configs.lookup "melody" = none :=
  ⟨by decide, lookup_unregistered_none "melody" (by decide)⟩

/-- C10 counterexample: the `performance` and `performance_with_dynamics`
registry entries differ in their `details` field (distinct generator ids
and descriptions), which is neither the encoder-decoder topology nor one of
the four performance-specific fields, so the configurations do not differ
only in those. -/
theorem configs_details_differ_counterexample :
    (default_configs.lookup "performance").map
        PerformanceRnnConfig.details ≠
      (default_configs.lookup "performance_with_dynamics").map
        PerformanceRnnConfig.details := by
  decide

/-- C10 amended: every one of the five registry configurations carries the
identical hyperparameter bag (batch_size 64, three 512-unit layers, dropout
keep probability 1.0, clip norm 3, learning rate 0.001); the configurations
differ only in their generator details, encoder-decoder topology, and the
four performance-specific fields. -/
theorem configs_share_hparams :
    default_configs.map (fun e => e.2.hparams) =
      List.replicate 5 standardHParams ∧
    standardHParams =
      { batch_size := 64, rnn_layer_sizes := [512, 512, 512],
        dropout_keep_prob := 1, clip_norm := 3,
        learning_rate := 1 / 1000 } :=
  ⟨rfl, rfl⟩
